import Mathlib

/-!
Shallow embedding of the FastAPI user/item service
(app/models, app/schemas, app/crud, app/api/api_v1/endpoints).

The relational store is a pair of lists of records; each CRUD function from
app/crud is translated to a pure function on that state. Endpoint handlers
from app/api/api_v1/endpoints are translated to functions returning
`Except HttpError _` (an HTTPException raise becomes an `.error` carrying the
status code and detail string of the raise). The password hasher and verifier
live in app/core/security.py, which is not part of the sources here; the CRUD
and endpoint functions therefore take them as opaque function parameters,
exactly as the service code treats them.
-/

namespace PyAuth

/-- The `users` table row, from app/models/user.py (timestamp columns omitted:
they are server-assigned and no property here mentions them). -/
structure UserRec where
  id : Nat
  email : String
  hashed_password : String
  full_name : Option String
  is_active : Bool
  is_superuser : Bool
deriving Repr, DecidableEq

/-- The `items` table row, from app/models/item.py (timestamps omitted). -/
structure ItemRec where
  id : Nat
  title : String
  description : Option String
  owner_id : Nat
deriving Repr, DecidableEq

/-- The store: both tables plus the autoincrement counters for the two
integer primary keys. -/
structure DB where
  users : List UserRec
  items : List ItemRec
  nextUserId : Nat
  nextItemId : Nat
deriving Repr, DecidableEq

/-- Request schema `UserCreate` from app/schemas/user.py: it inherits
`is_active: bool = True` from `UserBase`, so a registration body may carry
an explicit `is_active` value. -/
structure UserCreate where
  email : String
  full_name : Option String := none
  is_active : Bool := true
  password : String
deriving Repr, DecidableEq

/-- Request schema `UserUpdate` from app/schemas/user.py. The outer `Option`
of a field is pydantic set-tracking: `none` means the field was absent from
the payload (`model_dump(exclude_unset=True)` drops it). `full_name` keeps an
inner `Option` because an explicit JSON null clears it; for `email`,
`password` and `is_active` a set field carries a plain value (the columns are
NOT NULL, and an explicit null there is rejected before reaching the store,
which is outside this embedding). -/
structure UserUpdate where
  email : Option String := none
  full_name : Option (Option String) := none
  password : Option String := none
  is_active : Option Bool := none
deriving Repr, DecidableEq

/-- Request schema `ItemCreate` from app/schemas/item.py: title and optional
description only — it has no owner field at all. -/
structure ItemCreate where
  title : String
  description : Option String := none
deriving Repr, DecidableEq

/-- Request schema `ItemUpdate` from app/schemas/item.py, with the same
set-tracking encoding as `UserUpdate` (outer `none` = field absent from the
payload). -/
structure ItemUpdate where
  title : Option String := none
  description : Option (Option String) := none
deriving Repr, DecidableEq

/-- The public response schema `User` from app/schemas/user.py
(`UserInDBBase`): id, email, full_name, is_active, is_superuser and the
timestamps — and no `hashed_password` field, which only `UserInDB` adds. -/
structure PublicUser where
  email : String
  full_name : Option String
  is_active : Bool
  id : Nat
  is_superuser : Bool
deriving Repr, DecidableEq

/-- Serialization of an ORM user through `response_model=schemas.User`. -/
def toPublicUser (u : UserRec) : PublicUser :=
  { email := u.email
    full_name := u.full_name
    is_active := u.is_active
    id := u.id
    is_superuser := u.is_superuser }

/-- An `HTTPException` raise: status code plus detail message. -/
structure HttpError where
  status : Nat
  detail : String
deriving Repr, DecidableEq

namespace Crud

/-- app/crud/crud_user.py `get_user`: first user with the given id. -/
def get_user (db : DB) (user_id : Nat) : Option UserRec :=
  db.users.find? (fun u => u.id == user_id)

/-- app/crud/crud_user.py `get_user_by_email`. -/
def get_user_by_email (db : DB) (email : String) : Option UserRec :=
  db.users.find? (fun u => u.email == email)

/-- app/crud/crud_user.py `create_user`: hashes the password and inserts a
row with `email`, `hashed_password`, `full_name` and `is_active` taken from
the schema; `is_superuser` is not passed, so the column default `False` from
app/models/user.py applies. -/
def create_user (hash : String → String) (db : DB) (user : UserCreate) :
    UserRec × DB :=
  let db_user : UserRec :=
    { id := db.nextUserId
      email := user.email
      hashed_password := hash user.password
      full_name := user.full_name
      is_active := user.is_active
      is_superuser := false }
  (db_user,
    { db with users := db.users ++ [db_user], nextUserId := db.nextUserId + 1 })

/-- The field-by-field `setattr` loop of crud_user.update_user, after the
password has been replaced by `hashed_password`: each field present in the
payload is written, the rest are untouched. -/
def applyUserUpdate (hash : String → String) (u : UserRec) (upd : UserUpdate) :
    UserRec :=
  let u1 := match upd.email with
    | some e => { u with email := e }
    | none => u
  let u2 := match upd.full_name with
    | some f => { u1 with full_name := f }
    | none => u1
  let u3 := match upd.password with
    | some p => { u2 with hashed_password := hash p }
    | none => u2
  match upd.is_active with
  | some a => { u3 with is_active := a }
  | none => u3

/-- app/crud/crud_user.py `update_user`: look up by id, return `none` when
absent, otherwise apply the set fields and commit the mutated row. -/
def update_user (hash : String → String) (db : DB) (user_id : Nat)
    (user_update : UserUpdate) : Option UserRec × DB :=
  match get_user db user_id with
  | none => (none, db)
  | some db_user =>
    let u := applyUserUpdate hash db_user user_update
    (some u,
      { db with users := db.users.map (fun v => if v.id == user_id then u else v) })

/-- app/crud/crud_user.py `delete_user`. Deleting the ORM object removes the
user's items as well: app/models/user.py declares the `items` relationship
with delete cascade, and the foreign key in app/models/item.py is
`ondelete="CASCADE"`. -/
def delete_user (db : DB) (user_id : Nat) : Bool × DB :=
  match get_user db user_id with
  | none => (false, db)
  | some _ =>
    (true,
      { db with
          users := db.users.filter (fun u => u.id != user_id)
          items := db.items.filter (fun it => it.owner_id != user_id) })

/-- app/crud/crud_user.py `authenticate_user`: `None` when the email has no
user and also `None` when the password does not verify against the stored
hash. -/
def authenticate_user (verify : String → String → Bool) (db : DB)
    (email password : String) : Option UserRec :=
  match get_user_by_email db email with
  | none => none
  | some user =>
    if !verify password user.hashed_password then none else some user

/-- app/crud/crud_item.py `get_item`. -/
def get_item (db : DB) (item_id : Nat) : Option ItemRec :=
  db.items.find? (fun it => it.id == item_id)

/-- app/crud/crud_item.py `create_item`: inserts title and description from
the schema with the `owner_id` argument. -/
def create_item (db : DB) (item : ItemCreate) (owner_id : Nat) :
    ItemRec × DB :=
  let db_item : ItemRec :=
    { id := db.nextItemId
      title := item.title
      description := item.description
      owner_id := owner_id }
  (db_item,
    { db with items := db.items ++ [db_item], nextItemId := db.nextItemId + 1 })

/-- The `setattr` loop of crud_item.update_item over
`model_dump(exclude_unset=True)`. -/
def applyItemUpdate (it : ItemRec) (upd : ItemUpdate) : ItemRec :=
  let i1 := match upd.title with
    | some t => { it with title := t }
    | none => it
  match upd.description with
  | some d => { i1 with description := d }
  | none => i1

/-- app/crud/crud_item.py `update_item`: `none` when the item is absent or
when the optional `owner_id` filter is given and does not match; otherwise
the set fields are applied and committed. -/
def update_item (db : DB) (item_id : Nat) (item_update : ItemUpdate)
    (owner_id : Option Nat) : Option ItemRec × DB :=
  match get_item db item_id with
  | none => (none, db)
  | some db_item =>
    if (match owner_id with
        | some oid => db_item.owner_id != oid
        | none => false) then
      (none, db)
    else
      let it := applyItemUpdate db_item item_update
      (some it,
        { db with items := db.items.map (fun v => if v.id == item_id then it else v) })

/-- app/crud/crud_item.py `delete_item`, with the same optional ownership
filter. -/
def delete_item (db : DB) (item_id : Nat) (owner_id : Option Nat) :
    Bool × DB :=
  match get_item db item_id with
  | none => (false, db)
  | some db_item =>
    if (match owner_id with
        | some oid => db_item.owner_id != oid
        | none => false) then
      (false, db)
    else
      (true, { db with items := db.items.filter (fun it => it.id != item_id) })

end Crud

/-- A signed token as far as the endpoint logic observes it.
Modelled from the spec: app/core/security.py is not among the sources; per
the Token Codec contract a token carries subject, type and expiry, and the
endpoints only ever set the subject and the type, so the expiry and the
signature (never inspected by the handlers) are omitted. -/
structure TokenRec where
  sub : String
  type : String
deriving Repr, DecidableEq

/-- Modelled from the spec: security.create_access_token issues a token of
type `access` for the given subject. -/
def create_access_token (subject : String) : TokenRec :=
  { sub := subject, type := "access" }

/-- Modelled from the spec: security.create_refresh_token issues a token of
type `refresh` for the given subject. -/
def create_refresh_token (subject : String) : TokenRec :=
  { sub := subject, type := "refresh" }

/-- Response schema `Token`: the pair issued by login and refresh. -/
structure TokenPair where
  access_token : TokenRec
  refresh_token : TokenRec
  token_type : String
deriving Repr, DecidableEq

/-- The decoded claims of a presented refresh token, i.e. the dict returned
by security.decode_token when decoding succeeds: the handler reads its
`sub` and `type` keys. -/
structure TokenPayload where
  sub : String
  type : String
deriving Repr, DecidableEq

namespace Api

/-- Endpoint POST /auth/register from app/api/api_v1/endpoints/auth.py:
pre-check the email with `get_user_by_email`, return 400 when a user exists,
otherwise insert via `create_user`. -/
def register (hash : String → String) (db : DB) (user_in : UserCreate) :
    Except HttpError UserRec × DB :=
  match Crud.get_user_by_email db user_in.email with
  | some _ =>
    (.error { status := 400, detail := "A user with this email already exists" }, db)
  | none =>
    let r := Crud.create_user hash db user_in
    (.ok r.1, r.2)

/-- What goes over the wire from `register`: the created row serialized
through `response_model=schemas.User`. -/
def register_response (hash : String → String) (db : DB)
    (user_in : UserCreate) : Except HttpError PublicUser :=
  (register hash db user_in).1.map toPublicUser

/-- Endpoint POST /auth/login from app/api/api_v1/endpoints/auth.py:
authenticate, 401 on failure, 400 when the account is inactive, otherwise
issue an access and a refresh token with subject = the user's email. -/
def login (verify : String → String → Bool) (db : DB)
    (username password : String) : Except HttpError TokenPair :=
  match Crud.authenticate_user verify db username password with
  | none =>
    .error { status := 401, detail := "Incorrect email or password" }
  | some user =>
    if !user.is_active then
      .error { status := 400, detail := "Inactive user" }
    else
      .ok { access_token := create_access_token user.email
            refresh_token := create_refresh_token user.email
            token_type := "bearer" }

/-- Endpoint POST /auth/refresh from app/api/api_v1/endpoints/auth.py. The
`payload` argument is the result of security.decode_token on the presented
token (`none` when decoding fails); everything after the decode is the
handler's own logic, translated check for check in source order. -/
def refresh_token (db : DB) (payload : Option TokenPayload) :
    Except HttpError TokenPair :=
  match payload with
  | none =>
    .error { status := 401, detail := "Invalid refresh token" }
  | some p =>
    if p.type != "refresh" then
      .error { status := 401, detail := "Invalid token type. Refresh token required." }
    else
      match Crud.get_user_by_email db p.sub with
      | none => .error { status := 404, detail := "User not found" }
      | some user =>
        if !user.is_active then
          .error { status := 400, detail := "Inactive user" }
        else
          .ok { access_token := create_access_token user.email
                refresh_token := create_refresh_token user.email
                token_type := "bearer" }

/-- Endpoint POST /items from app/api/api_v1/endpoints/items.py:
`current_user` is the identity resolved by the authentication dependency;
the handler passes `owner_id=current_user.id` to the CRUD insert. -/
def create_item (db : DB) (item_in : ItemCreate) (current_user : UserRec) :
    ItemRec × DB :=
  Crud.create_item db item_in current_user.id

/-- Endpoint PUT /items/{item_id} from app/api/api_v1/endpoints/items.py:
404 when the item is absent, then 403 unless the requester owns the item or
is a superuser, then the CRUD update (called without an owner filter). -/
def update_item (db : DB) (item_id : Nat) (item_in : ItemUpdate)
    (current_user : UserRec) : Except HttpError (Option ItemRec) × DB :=
  match Crud.get_item db item_id with
  | none =>
    (.error { status := 404, detail := "Item not found" }, db)
  | some item =>
    if item.owner_id != current_user.id && !current_user.is_superuser then
      (.error { status := 403,
                detail := "Not enough permissions. You can only update your own items." }, db)
    else
      let r := Crud.update_item db item_id item_in none
      (.ok r.1, r.2)

/-- Endpoint DELETE /items/{item_id} from app/api/api_v1/endpoints/items.py:
the same 404-then-403 sequence, then the CRUD delete. -/
def delete_item (db : DB) (item_id : Nat) (current_user : UserRec) :
    Except HttpError Unit × DB :=
  match Crud.get_item db item_id with
  | none =>
    (.error { status := 404, detail := "Item not found" }, db)
  | some item =>
    if item.owner_id != current_user.id && !current_user.is_superuser then
      (.error { status := 403,
                detail := "Not enough permissions. You can only delete your own items." }, db)
    else
      let r := Crud.delete_item db item_id none
      (.ok (), r.2)

/-- Endpoint GET /users/{user_id} from app/api/api_v1/endpoints/users.py:
404 when absent, then 403 unless self or superuser. -/
def read_user_by_id (db : DB) (user_id : Nat) (current_user : UserRec) :
    Except HttpError UserRec :=
  match Crud.get_user db user_id with
  | none =>
    .error { status := 404, detail := "User not found" }
  | some user =>
    if user.id != current_user.id && !current_user.is_superuser then
      .error { status := 403, detail := "Not enough permissions" }
    else
      .ok user

/-- Endpoint DELETE /users/{user_id} from app/api/api_v1/endpoints/users.py:
404 when absent, then 403 unless self or superuser, then the cascading CRUD
delete. -/
def delete_user (db : DB) (user_id : Nat) (current_user : UserRec) :
    Except HttpError Unit × DB :=
  match Crud.get_user db user_id with
  | none =>
    (.error { status := 404, detail := "User not found" }, db)
  | some user =>
    if user.id != current_user.id && !current_user.is_superuser then
      (.error { status := 403, detail := "Not enough permissions" }, db)
    else
      let r := Crud.delete_user db user_id
      (.ok (), r.2)

end Api

/-! Interleaving model of two concurrent register calls. Per the source,
`register` is two store operations: the existence pre-check (auth.py, the
`get_user_by_email` call) and the insert (`create_user`); §5 of the spec
makes each store operation atomic, so a concurrent schedule interleaves
these steps. The unique index on `users.email` (app/models/user.py) makes
the store reject an insert whose email is already present; `register` has no
handler for that rejection, so it surfaces as a raw store error, not as the
409/400 conflict of the pre-check. -/

/-- Outcome of one register call under the interleaved model. -/
inductive RegOutcome where
  | ok (u : UserRec)
  | conflict
  | uniqueViolation
deriving Repr, DecidableEq

/-- The pre-check step of `register`: one store read. -/
def register_check (db : DB) (email : String) : Bool :=
  (Crud.get_user_by_email db email).isSome

/-- The insert step of `register`: the store enforces the unique email index
at commit and `register` does not catch the violation. -/
def register_insert (hash : String → String) (db : DB) (user_in : UserCreate) :
    RegOutcome × DB :=
  if (Crud.get_user_by_email db user_in.email).isSome then
    (.uniqueViolation, db)
  else
    let r := Crud.create_user hash db user_in
    (.ok r.1, r.2)

/-- The racing schedule of two register calls: both pre-checks run before
either insert (check A, check B, insert A, insert B); each line is one
atomic store operation. A call whose pre-check found the email answers
conflict and performs no insert, exactly as the handler does. -/
def register_raced (hash : String → String) (db : DB) (a b : UserCreate) :
    RegOutcome × RegOutcome × DB :=
  let checkA := register_check db a.email
  let checkB := register_check db b.email
  let ra := if checkA then (RegOutcome.conflict, db) else register_insert hash db a
  let rb := if checkB then (RegOutcome.conflict, ra.2) else register_insert hash ra.2 b
  (ra.1, rb.1, rb.2)

/-- The referential-integrity invariant: every item's owner_id is the id of
some user in the store. -/
def ownersExist (db : DB) : Prop :=
  ∀ it ∈ db.items, ∃ u ∈ db.users, u.id = it.owner_id

/-! Concrete sample values used to instantiate proved theorems. -/

/-- A concrete stand-in for the opaque password hash function. -/
def hashEx (s : String) : String :=
  String.append "h:" s

/-- A concrete stand-in for the opaque password verifier, matching
`hashEx`. -/
def verifyEx (plain hashed : String) : Bool :=
  hashEx plain == hashed

/-- A sample ordinary user. -/
def aliceEx : UserRec :=
  { id := 1
    email := "alice@example.com"
    hashed_password := hashEx "secret1"
    full_name := some "Alice"
    is_active := true
    is_superuser := false }

/-- A second sample ordinary user. -/
def bobEx : UserRec :=
  { id := 2
    email := "bob@example.com"
    hashed_password := hashEx "secret2"
    full_name := none
    is_active := true
    is_superuser := false }

/-- A sample superuser. -/
def rootEx : UserRec :=
  { id := 3
    email := "admin@example.com"
    hashed_password := hashEx "secret3"
    full_name := none
    is_active := true
    is_superuser := true }

/-- A sample deactivated user. -/
def eveEx : UserRec :=
  { id := 4
    email := "eve@example.com"
    hashed_password := hashEx "secret4"
    full_name := none
    is_active := false
    is_superuser := false }

/-- A sample item owned by the first sample user. -/
def itemEx : ItemRec :=
  { id := 10
    title := "T"
    description := none
    owner_id := 1 }

/-- A sample populated store. -/
def dbEx : DB :=
  { users := [aliceEx, bobEx, rootEx, eveEx]
    items := [itemEx]
    nextUserId := 5
    nextItemId := 11 }

/-- The empty store. -/
def dbEmpty : DB :=
  { users := [], items := [], nextUserId := 1, nextItemId := 1 }

/-- A sample registration request. -/
def userCreateEx : UserCreate :=
  { email := "new@example.com"
    full_name := some "New User"
    password := "password123" }

/-- The row `register` creates for `userCreateEx` on the empty store. -/
def newUserEx : UserRec :=
  { id := 1
    email := "new@example.com"
    hashed_password := hashEx "password123"
    full_name := some "New User"
    is_active := true
    is_superuser := false }

/-- A registration request that explicitly carries `is_active = false`. -/
def inactiveCreateEx : UserCreate :=
  { email := "sleepy@example.com"
    full_name := none
    is_active := false
    password := "secret1" }

/-- The registration request used by both calls of the race schedule. -/
def racedCreateEx : UserCreate :=
  { email := "race@example.com"
    full_name := none
    password := "secret9" }

/-- The row the winning call of the race schedule inserts. -/
def racedUserEx : UserRec :=
  { id := 1
    email := "race@example.com"
    hashed_password := hashEx "secret9"
    full_name := none
    is_active := true
    is_superuser := false }

/-- Whether a register call under the race model succeeded. -/
def RegOutcome.isOk : RegOutcome → Bool
  | .ok _ => true
  | .conflict => false
  | .uniqueViolation => false

/-- A sample partial item update setting only the description. -/
def descUpdateEx : ItemUpdate :=
  { description := some (some "D") }

/-- The sample item after `descUpdateEx`. -/
def itemUpdatedEx : ItemRec :=
  { id := 10, title := "T", description := some "D", owner_id := 1 }

/-- A sample partial user update setting only the full name. -/
def nameUpdateEx : UserUpdate :=
  { full_name := some (some "Alice B") }

/-- The first sample user after `nameUpdateEx`. -/
def aliceUpdatedEx : UserRec :=
  { aliceEx with full_name := some "Alice B" }

/-! Shared lemmas about the ownership gate and the partial-update helpers. -/

theorem gate_eq_false (a b : Nat) (s : Bool) :
    ((a != b && !s) = false) ↔ (b = a ∨ s = true) := by
  cases s
  · simp only [Bool.not_false, Bool.and_true, bne_eq_false_iff_eq]
    constructor
    · intro h
      exact Or.inl h.symm
    · intro h
      rcases h with h | h
      · exact h.symm
      · exact Bool.noConfusion h
  · simp

theorem gate_eq_true (a b : Nat) (s : Bool) :
    ((a != b && !s) = true) ↔ (¬b = a ∧ s = false) := by
  cases s
  · simp only [Bool.not_false, Bool.and_true, bne_iff_ne]
    constructor
    · intro h
      exact ⟨fun e => h e.symm, trivial⟩
    · intro h
      exact fun e => h.1 e.symm
  · simp

theorem applyItemUpdate_id (it : ItemRec) (upd : ItemUpdate) :
    (Crud.applyItemUpdate it upd).id = it.id := by
  unfold Crud.applyItemUpdate
  cases upd.title <;> cases upd.description <;> rfl

theorem applyItemUpdate_owner_id (it : ItemRec) (upd : ItemUpdate) :
    (Crud.applyItemUpdate it upd).owner_id = it.owner_id := by
  unfold Crud.applyItemUpdate
  cases upd.title <;> cases upd.description <;> rfl

theorem applyItemUpdate_title_of_unset (it : ItemRec) (upd : ItemUpdate)
    (h : upd.title = none) :
    (Crud.applyItemUpdate it upd).title = it.title := by
  unfold Crud.applyItemUpdate
  rw [h]
  cases upd.description <;> rfl

theorem applyItemUpdate_description_of_unset (it : ItemRec) (upd : ItemUpdate)
    (h : upd.description = none) :
    (Crud.applyItemUpdate it upd).description = it.description := by
  unfold Crud.applyItemUpdate
  rw [h]
  cases upd.title <;> rfl

theorem applyUserUpdate_id (hash : String → String) (u : UserRec)
    (upd : UserUpdate) :
    (Crud.applyUserUpdate hash u upd).id = u.id := by
  unfold Crud.applyUserUpdate
  cases upd.email <;> cases upd.full_name <;> cases upd.password <;>
    cases upd.is_active <;> rfl

theorem applyUserUpdate_is_superuser (hash : String → String) (u : UserRec)
    (upd : UserUpdate) :
    (Crud.applyUserUpdate hash u upd).is_superuser = u.is_superuser := by
  unfold Crud.applyUserUpdate
  cases upd.email <;> cases upd.full_name <;> cases upd.password <;>
    cases upd.is_active <;> rfl

theorem applyUserUpdate_email_of_unset (hash : String → String) (u : UserRec)
    (upd : UserUpdate) (h : upd.email = none) :
    (Crud.applyUserUpdate hash u upd).email = u.email := by
  unfold Crud.applyUserUpdate
  rw [h]
  cases upd.full_name <;> cases upd.password <;> cases upd.is_active <;> rfl

theorem applyUserUpdate_full_name_of_unset (hash : String → String)
    (u : UserRec) (upd : UserUpdate) (h : upd.full_name = none) :
    (Crud.applyUserUpdate hash u upd).full_name = u.full_name := by
  unfold Crud.applyUserUpdate
  rw [h]
  cases upd.email <;> cases upd.password <;> cases upd.is_active <;> rfl

theorem applyUserUpdate_password_of_unset (hash : String → String)
    (u : UserRec) (upd : UserUpdate) (h : upd.password = none) :
    (Crud.applyUserUpdate hash u upd).hashed_password = u.hashed_password := by
  unfold Crud.applyUserUpdate
  rw [h]
  cases upd.email <;> cases upd.full_name <;> cases upd.is_active <;> rfl

theorem applyUserUpdate_is_active_of_unset (hash : String → String)
    (u : UserRec) (upd : UserUpdate) (h : upd.is_active = none) :
    (Crud.applyUserUpdate hash u upd).is_active = u.is_active := by
  unfold Crud.applyUserUpdate
  rw [h]
  cases upd.email <;> cases upd.full_name <;> cases upd.password <;> rfl

/-- C7: every item created through the authenticated create-item endpoint
carries `owner_id = current_user.id`: the handler passes the requester's id
to the insert and the `ItemCreate` body has no owner field, so no request
body can set or override the owner. -/
theorem create_item_owner_is_requester (db : DB) (item_in : ItemCreate)
    (current_user : UserRec) :
    (Api.create_item db item_in current_user).1.owner_id = current_user.id ∧
    (Api.create_item db item_in current_user).2.items =
      db.items ++ [(Api.create_item db item_in current_user).1] :=
  ⟨rfl, rfl⟩

/-- C5: the public `User` response schema carries no password hash: the
serialized view of a user row is unchanged under any replacement of its
`hashed_password`, and the wire response of `register` does not depend on
the hash function at all. -/
theorem register_public_view_no_hash :
    (∀ (u : UserRec) (h : String),
      toPublicUser { u with hashed_password := h } = toPublicUser u) ∧
    (∀ (hash1 hash2 : String → String) (db : DB) (user_in : UserCreate),
      Api.register_response hash1 db user_in =
        Api.register_response hash2 db user_in) := by
  refine ⟨fun u h => rfl, fun hash1 hash2 db user_in => ?_⟩
  unfold Api.register_response Api.register
  cases Crud.get_user_by_email db user_in.email <;> rfl

/-- C2: a login against an email with no user and a login against an
existing user's email with a password that fails verification produce the
very same `Unauthorized` outcome — equal results, with status 401 and the
one shared message — so the login result carries no oracle for email
existence. -/
theorem login_no_email_oracle (verify : String → String → Bool) (db : DB)
    (email1 pw1 email2 pw2 : String) (u : UserRec)
    (h1 : Crud.get_user_by_email db email1 = none)
    (h2 : Crud.get_user_by_email db email2 = some u)
    (h3 : verify pw2 u.hashed_password = false) :
    Api.login verify db email1 pw1 = Api.login verify db email2 pw2 ∧
    Api.login verify db email1 pw1 =
      Except.error { status := 401, detail := "Incorrect email or password" } := by
  have hmiss : Api.login verify db email1 pw1 =
      Except.error { status := 401, detail := "Incorrect email or password" } := by
    unfold Api.login Crud.authenticate_user
    rw [h1]
  have hwrong : Api.login verify db email2 pw2 =
      Except.error { status := 401, detail := "Incorrect email or password" } := by
    simp [Api.login, Crud.authenticate_user, h2, h3]
  exact ⟨hmiss.trans hwrong.symm, hmiss⟩

/-- C2 witness: the two indistinguishable login failures on the sample
store. -/
theorem login_no_email_oracle_witness :
    Crud.get_user_by_email dbEx "nobody@example.com" = none ∧
    Crud.get_user_by_email dbEx "alice@example.com" = some aliceEx ∧
    verifyEx "wrong" aliceEx.hashed_password = false ∧
    Api.login verifyEx dbEx "nobody@example.com" "wrong" =
      Api.login verifyEx dbEx "alice@example.com" "wrong" :=
  ⟨by decide, by decide, by decide,
    (login_no_email_oracle verifyEx dbEx "nobody@example.com" "wrong"
      "alice@example.com" "wrong" aliceEx (by decide) (by decide) (by decide)).1⟩

/-- C3: the refresh endpoint applies its checks in source order — decode
failure gives 401, a decoded type other than `refresh` gives 401, an unknown
subject gives 404, a deactivated subject gives 400 (inactive account), and
otherwise a fresh access token and a fresh refresh token are issued, both
with subject equal to the looked-up user's email. -/
theorem refresh_check_order (db : DB) :
    (Api.refresh_token db none =
      Except.error { status := 401, detail := "Invalid refresh token" }) ∧
    (∀ p : TokenPayload, p.type ≠ "refresh" →
      Api.refresh_token db (some p) =
        Except.error { status := 401,
                       detail := "Invalid token type. Refresh token required." }) ∧
    (∀ p : TokenPayload, p.type = "refresh" →
      Crud.get_user_by_email db p.sub = none →
      Api.refresh_token db (some p) =
        Except.error { status := 404, detail := "User not found" }) ∧
    (∀ (p : TokenPayload) (u : UserRec), p.type = "refresh" →
      Crud.get_user_by_email db p.sub = some u → u.is_active = false →
      Api.refresh_token db (some p) =
        Except.error { status := 400, detail := "Inactive user" }) ∧
    (∀ (p : TokenPayload) (u : UserRec), p.type = "refresh" →
      Crud.get_user_by_email db p.sub = some u → u.is_active = true →
      Api.refresh_token db (some p) =
        Except.ok { access_token := { sub := u.email, type := "access" }
                    refresh_token := { sub := u.email, type := "refresh" }
                    token_type := "bearer" }) := by
  refine ⟨rfl, ?_, ?_, ?_, ?_⟩
  · intro p hp
    have ht : (p.type != "refresh") = true := bne_iff_ne.2 hp
    simp [Api.refresh_token, ht]
  · intro p hp hu
    have ht : (p.type != "refresh") = false := bne_eq_false_iff_eq.2 hp
    simp [Api.refresh_token, ht, hu]
  · intro p u hp hu hact
    have ht : (p.type != "refresh") = false := bne_eq_false_iff_eq.2 hp
    simp [Api.refresh_token, ht, hu, hact]
  · intro p u hp hu hact
    have ht : (p.type != "refresh") = false := bne_eq_false_iff_eq.2 hp
    simp [Api.refresh_token, ht, hu, hact, create_access_token,
      create_refresh_token]

/-- C3 witness: all five refresh outcomes exercised on the sample store. -/
theorem refresh_check_order_witness :
    Api.refresh_token dbEx none =
      Except.error { status := 401, detail := "Invalid refresh token" } ∧
    Api.refresh_token dbEx (some { sub := "alice@example.com", type := "access" }) =
      Except.error { status := 401,
                     detail := "Invalid token type. Refresh token required." } ∧
    Api.refresh_token dbEx (some { sub := "ghost@example.com", type := "refresh" }) =
      Except.error { status := 404, detail := "User not found" } ∧
    Api.refresh_token dbEx (some { sub := "eve@example.com", type := "refresh" }) =
      Except.error { status := 400, detail := "Inactive user" } ∧
    Api.refresh_token dbEx (some { sub := "alice@example.com", type := "refresh" }) =
      Except.ok { access_token := { sub := aliceEx.email, type := "access" }
                  refresh_token := { sub := aliceEx.email, type := "refresh" }
                  token_type := "bearer" } :=
  ⟨(refresh_check_order dbEx).1,
    (refresh_check_order dbEx).2.1 { sub := "alice@example.com", type := "access" }
      (by decide),
    (refresh_check_order dbEx).2.2.1 { sub := "ghost@example.com", type := "refresh" }
      rfl (by decide),
    (refresh_check_order dbEx).2.2.2.1 { sub := "eve@example.com", type := "refresh" }
      eveEx rfl (by decide) (by decide),
    (refresh_check_order dbEx).2.2.2.2 { sub := "alice@example.com", type := "refresh" }
      aliceEx rfl (by decide) (by decide)⟩

/-- C4 counterexample: a registration request carrying `is_active = false`
succeeds on the empty store and the user it creates is inactive — the
claim that every registered user has `is_active = true` regardless of the
request body fails, because `UserCreate` inherits the `is_active` field and
`create_user` copies it into the row. -/
theorem register_inactive_counterexample :
    ((Api.register hashEx dbEmpty inactiveCreateEx).1.map
        (fun u => u.is_active)) = Except.ok false := by
  rfl

/-- C4 amended: every user created by a successful register call has
`is_superuser = false`, and its `is_active` flag equals the `is_active`
field of the registration request (whose schema default is `true`). -/
theorem register_superuser_false_active_from_request
    (hash : String → String) (db : DB) (user_in : UserCreate) (r : UserRec)
    (db2 : DB) (h : Api.register hash db user_in = (Except.ok r, db2)) :
    r.is_superuser = false ∧ r.is_active = user_in.is_active := by
  unfold Api.register at h
  cases hg : Crud.get_user_by_email db user_in.email with
  | some u =>
    rw [hg] at h
    simp at h
  | none =>
    rw [hg] at h
    have hr : Except.ok (Crud.create_user hash db user_in).1 =
        (Except.ok r : Except HttpError UserRec) := congrArg Prod.fst h
    have hr2 : (Crud.create_user hash db user_in).1 = r := by
      injection hr
    rw [← hr2]
    exact ⟨rfl, rfl⟩

/-- C4 amended witness: the default registration request on the empty store
yields an active non-superuser. -/
theorem register_superuser_false_witness :
    newUserEx.is_superuser = false ∧ newUserEx.is_active = userCreateEx.is_active :=
  register_superuser_false_active_from_request hashEx dbEmpty userCreateEx
    newUserEx
    { users := [newUserEx], items := [], nextUserId := 2, nextItemId := 1 }
    (by rfl)

/-- C8 counterexample: under the interleaved schedule (both pre-checks
before either insert) two register calls with the same email on the empty
store both pass the existence pre-check; the first inserts successfully and
the second is stopped only by the store's unique email index, surfacing the
uncaught uniqueness violation instead of the handler's conflict error. This
refutes the claim that the implementation performs an atomic
insert-if-absent or catches the uniqueness violation rather than using a
check-then-insert pattern. -/
theorem register_race_uncaught_counterexample :
    (register_raced hashEx dbEmpty racedCreateEx racedCreateEx).1 =
      RegOutcome.ok racedUserEx ∧
    (register_raced hashEx dbEmpty racedCreateEx racedCreateEx).2.1 =
      RegOutcome.uniqueViolation ∧
    (register_raced hashEx dbEmpty racedCreateEx racedCreateEx).2.1 ≠
      RegOutcome.conflict := by
  decide

/-- C8 amended: register is a check-then-insert; under the racing schedule
the store's unique email index still keeps two same-email calls from both
succeeding — whenever the first call succeeds, the second ends in the
uncaught store uniqueness violation (and in particular not in a second
success and not in the handler's conflict error). -/
theorem register_race_not_both_succeed (hash : String → String) (db : DB)
    (a b : UserCreate) (hemail : a.email = b.email) (ua : UserRec)
    (hA : (register_raced hash db a b).1 = RegOutcome.ok ua) :
    (register_raced hash db a b).2.1 = RegOutcome.uniqueViolation := by
  simp only [register_raced] at hA ⊢
  cases hcA : register_check db a.email with
  | true =>
    rw [hcA] at hA
    simp at hA
  | false =>
    rw [hcA] at hA
    simp only [Bool.false_eq_true, if_false] at hA ⊢
    have hcB : register_check db b.email = false := by
      rw [← hemail]
      exact hcA
    rw [hcB]
    simp only [Bool.false_eq_true, if_false]
    have habs : (Crud.get_user_by_email db a.email).isSome = false := hcA
    have h2 : (register_insert hash db a).2 = (Crud.create_user hash db a).2 := by
      unfold register_insert
      rw [habs]
      simp
    rw [h2]
    have hmem : (Crud.create_user hash db a).1 ∈
        (Crud.create_user hash db a).2.users := by
      unfold Crud.create_user
      simp
    have hpresent :
        (Crud.get_user_by_email (Crud.create_user hash db a).2 b.email).isSome = true := by
      unfold Crud.get_user_by_email
      rw [List.find?_isSome]
      refine ⟨(Crud.create_user hash db a).1, hmem, ?_⟩
      have he : (Crud.create_user hash db a).1.email = a.email := rfl
      rw [he, hemail]
      exact beq_self_eq_true b.email
    unfold register_insert
    rw [hpresent]
    simp

/-- C8 amended witness: the concrete raced run on the empty store. -/
theorem register_race_not_both_succeed_witness :
    racedCreateEx.email = racedCreateEx.email ∧
    (register_raced hashEx dbEmpty racedCreateEx racedCreateEx).1 =
      RegOutcome.ok racedUserEx ∧
    (register_raced hashEx dbEmpty racedCreateEx racedCreateEx).2.1 =
      RegOutcome.uniqueViolation :=
  ⟨rfl, by decide,
    register_race_not_both_succeed hashEx dbEmpty racedCreateEx racedCreateEx
      rfl racedUserEx (by decide)⟩

/-- C1: for an existing item and an authenticated active requester, the
update-item and delete-item endpoints succeed exactly when the requester's
id equals the item's owner_id or the requester is a superuser, and fail
with the 403 Forbidden error otherwise; the delete-user endpoint applies
the same rule to a requester deleting a user account. -/
theorem ownership_gate_update_delete (db : DB) (cu : UserRec)
    (_hact : cu.is_active = true) :
    (∀ (item_id : Nat) (item : ItemRec) (upd : ItemUpdate),
      Crud.get_item db item_id = some item →
      (cu.id = item.owner_id ∨ cu.is_superuser = true →
        (Api.update_item db item_id upd cu).1 =
          Except.ok (some (Crud.applyItemUpdate item upd))) ∧
      (¬cu.id = item.owner_id ∧ cu.is_superuser = false →
        (Api.update_item db item_id upd cu).1 =
          Except.error { status := 403,
                         detail := "Not enough permissions. You can only update your own items." })) ∧
    (∀ (item_id : Nat) (item : ItemRec),
      Crud.get_item db item_id = some item →
      (cu.id = item.owner_id ∨ cu.is_superuser = true →
        (Api.delete_item db item_id cu).1 = Except.ok ()) ∧
      (¬cu.id = item.owner_id ∧ cu.is_superuser = false →
        (Api.delete_item db item_id cu).1 =
          Except.error { status := 403,
                         detail := "Not enough permissions. You can only delete your own items." })) ∧
    (∀ (user_id : Nat) (target : UserRec),
      Crud.get_user db user_id = some target →
      (cu.id = target.id ∨ cu.is_superuser = true →
        (Api.delete_user db user_id cu).1 = Except.ok ()) ∧
      (¬cu.id = target.id ∧ cu.is_superuser = false →
        (Api.delete_user db user_id cu).1 =
          Except.error { status := 403, detail := "Not enough permissions" })) := by
  refine ⟨?_, ?_, ?_⟩
  · intro item_id item upd hget
    constructor
    · intro hperm
      have hc : (item.owner_id != cu.id && !cu.is_superuser) = false :=
        (gate_eq_false _ _ _).2 hperm
      simp [Api.update_item, hget, hc, Crud.update_item]
    · intro hdeny
      have hc : (item.owner_id != cu.id && !cu.is_superuser) = true :=
        (gate_eq_true _ _ _).2 hdeny
      simp [Api.update_item, hget, hc]
  · intro item_id item hget
    constructor
    · intro hperm
      have hc : (item.owner_id != cu.id && !cu.is_superuser) = false :=
        (gate_eq_false _ _ _).2 hperm
      simp [Api.delete_item, hget, hc]
    · intro hdeny
      have hc : (item.owner_id != cu.id && !cu.is_superuser) = true :=
        (gate_eq_true _ _ _).2 hdeny
      simp [Api.delete_item, hget, hc]
  · intro user_id target hget
    constructor
    · intro hperm
      have hc : (target.id != cu.id && !cu.is_superuser) = false :=
        (gate_eq_false _ _ _).2 hperm
      simp [Api.delete_user, hget, hc]
    · intro hdeny
      have hc : (target.id != cu.id && !cu.is_superuser) = true :=
        (gate_eq_true _ _ _).2 hdeny
      simp [Api.delete_user, hget, hc]

/-- C1 witness: on the sample store a non-owner is refused the update, a
superuser may delete another user's item, and a user may not delete another
user's account. -/
theorem ownership_gate_witness :
    (Api.update_item dbEx 10 descUpdateEx bobEx).1 =
      Except.error { status := 403,
                     detail := "Not enough permissions. You can only update your own items." } ∧
    (Api.delete_item dbEx 10 rootEx).1 = Except.ok () ∧
    (Api.delete_user dbEx 1 bobEx).1 =
      Except.error { status := 403, detail := "Not enough permissions" } :=
  ⟨((ownership_gate_update_delete dbEx bobEx (by decide)).1 10 itemEx
      descUpdateEx (by decide)).2 ⟨by decide, by decide⟩,
    ((ownership_gate_update_delete dbEx rootEx (by decide)).2.1 10 itemEx
      (by decide)).1 (Or.inr (by decide)),
    ((ownership_gate_update_delete dbEx bobEx (by decide)).2.2 1 aliceEx
      (by decide)).2 ⟨by decide, by decide⟩⟩

/-- C9: in read-user-by-id, update-item and delete-item the existence check
runs before the authorization check: a missing resource id yields the 404
error for every authenticated requester, including one who, were the
resource present and foreign, would be refused with 403 (shown by the last
conjunct), so any authenticated user can probe which ids exist. -/
theorem missing_resource_not_found_before_authz :
    (∀ (db : DB) (user_id : Nat) (cu : UserRec),
      Crud.get_user db user_id = none →
      Api.read_user_by_id db user_id cu =
        Except.error { status := 404, detail := "User not found" }) ∧
    (∀ (db : DB) (item_id : Nat) (upd : ItemUpdate) (cu : UserRec),
      Crud.get_item db item_id = none →
      (Api.update_item db item_id upd cu).1 =
        Except.error { status := 404, detail := "Item not found" }) ∧
    (∀ (db : DB) (item_id : Nat) (cu : UserRec),
      Crud.get_item db item_id = none →
      (Api.delete_item db item_id cu).1 =
        Except.error { status := 404, detail := "Item not found" }) ∧
    (∀ (db : DB) (user_id : Nat) (cu target : UserRec),
      Crud.get_user db user_id = some target →
      ¬cu.id = target.id → cu.is_superuser = false →
      Api.read_user_by_id db user_id cu =
        Except.error { status := 403, detail := "Not enough permissions" }) := by
  refine ⟨?_, ?_, ?_, ?_⟩
  · intro db user_id cu h
    simp [Api.read_user_by_id, h]
  · intro db item_id upd cu h
    simp [Api.update_item, h]
  · intro db item_id cu h
    simp [Api.delete_item, h]
  · intro db user_id cu target h hne hs
    have hc : (target.id != cu.id && !cu.is_superuser) = true :=
      (gate_eq_true _ _ _).2 ⟨hne, hs⟩
    simp [Api.read_user_by_id, h, hc]

/-- C9 witness: missing ids answer 404 to a plain user on the sample store,
while an existing foreign user id answers 403 to the same requester. -/
theorem missing_resource_witness :
    Api.read_user_by_id dbEx 99 bobEx =
      Except.error { status := 404, detail := "User not found" } ∧
    (Api.update_item dbEx 99 descUpdateEx bobEx).1 =
      Except.error { status := 404, detail := "Item not found" } ∧
    (Api.delete_item dbEx 99 bobEx).1 =
      Except.error { status := 404, detail := "Item not found" } ∧
    Api.read_user_by_id dbEx 1 bobEx =
      Except.error { status := 403, detail := "Not enough permissions" } :=
  ⟨missing_resource_not_found_before_authz.1 dbEx 99 bobEx (by decide),
    missing_resource_not_found_before_authz.2.1 dbEx 99 descUpdateEx bobEx (by decide),
    missing_resource_not_found_before_authz.2.2.1 dbEx 99 bobEx (by decide),
    missing_resource_not_found_before_authz.2.2.2 dbEx 1 bobEx aliceEx
      (by decide) (by decide) (by decide)⟩

/-! Preservation of the owner-reference invariant, operation by operation. -/

theorem delete_user_preserves_owners (db : DB) (user_id : Nat)
    (h : ownersExist db) : ownersExist (Crud.delete_user db user_id).2 := by
  unfold Crud.delete_user
  cases hg : Crud.get_user db user_id with
  | none => exact h
  | some u =>
    intro it hit
    have hmem := List.mem_filter.1 hit
    obtain ⟨w, hw, hwid⟩ := h it hmem.1
    refine ⟨w, List.mem_filter.2 ⟨hw, ?_⟩, hwid⟩
    rw [hwid]
    exact hmem.2

theorem register_preserves_owners (hash : String → String) (db : DB)
    (user_in : UserCreate) (h : ownersExist db) :
    ownersExist (Api.register hash db user_in).2 := by
  unfold Api.register
  cases hg : Crud.get_user_by_email db user_in.email with
  | some u => exact h
  | none =>
    intro it hit
    obtain ⟨w, hw, hwid⟩ := h it hit
    exact ⟨w, List.mem_append_left _ hw, hwid⟩

theorem create_item_preserves_owners (db : DB) (item_in : ItemCreate)
    (cu : UserRec) (hcu : cu ∈ db.users) (h : ownersExist db) :
    ownersExist (Api.create_item db item_in cu).2 := by
  intro it hit
  rcases List.mem_append.1 hit with hold | hnew
  · exact h it hold
  · have hnew2 : it = (Api.create_item db item_in cu).1 := by
      simpa using hnew
    refine ⟨cu, hcu, ?_⟩
    rw [hnew2]
    rfl

theorem owners_exist_map_item_update (db : DB) (item : ItemRec)
    (upd : ItemUpdate) (item_id : Nat) (hitem : item ∈ db.items)
    (h : ownersExist db) :
    ownersExist
      { db with
          items := db.items.map
                     (fun v => if v.id == item_id then Crud.applyItemUpdate item upd else v) } := by
  intro it hit
  obtain ⟨v, hv, hfv⟩ := List.mem_map.1 hit
  by_cases hid : (v.id == item_id) = true
  · have hfv2 : Crud.applyItemUpdate item upd = it := by
      rw [← hfv]
      simp [hid]
    obtain ⟨w, hw, hwid⟩ := h item hitem
    refine ⟨w, hw, ?_⟩
    rw [← hfv2, applyItemUpdate_owner_id]
    exact hwid
  · have hfv2 : v = it := by
      rw [← hfv]
      simp [hid]
    obtain ⟨w, hw, hwid⟩ := h v hv
    rw [← hfv2]
    exact ⟨w, hw, hwid⟩

theorem crud_update_item_preserves_owners (db : DB) (item_id : Nat)
    (upd : ItemUpdate) (ofilter : Option Nat) (h : ownersExist db) :
    ownersExist (Crud.update_item db item_id upd ofilter).2 := by
  cases hg : Crud.get_item db item_id with
  | none =>
    have hres : (Crud.update_item db item_id upd ofilter).2 = db := by
      simp [Crud.update_item, hg]
    rw [hres]
    exact h
  | some item =>
    have hitem : item ∈ db.items := List.mem_of_find?_eq_some hg
    cases ofilter with
    | some oid =>
      cases hof : (item.owner_id != oid) with
      | true =>
        have hres : (Crud.update_item db item_id upd (some oid)).2 = db := by
          simp [Crud.update_item, hg, hof]
        rw [hres]
        exact h
      | false =>
        have hres : (Crud.update_item db item_id upd (some oid)).2 =
            { db with
                items := db.items.map
                           (fun v => if v.id == item_id then Crud.applyItemUpdate item upd else v) } := by
          simp [Crud.update_item, hg, hof]
        rw [hres]
        exact owners_exist_map_item_update db item upd item_id hitem h
    | none =>
      have hres : (Crud.update_item db item_id upd none).2 =
          { db with
              items := db.items.map
                         (fun v => if v.id == item_id then Crud.applyItemUpdate item upd else v) } := by
        simp [Crud.update_item, hg]
      rw [hres]
      exact owners_exist_map_item_update db item upd item_id hitem h

theorem update_item_preserves_owners (db : DB) (item_id : Nat)
    (upd : ItemUpdate) (cu : UserRec) (h : ownersExist db) :
    ownersExist (Api.update_item db item_id upd cu).2 := by
  cases hg : Crud.get_item db item_id with
  | none =>
    have hres : (Api.update_item db item_id upd cu).2 = db := by
      simp [Api.update_item, hg]
    rw [hres]
    exact h
  | some item =>
    cases hc : (item.owner_id != cu.id && !cu.is_superuser) with
    | true =>
      have hres : (Api.update_item db item_id upd cu).2 = db := by
        simp [Api.update_item, hg, hc]
      rw [hres]
      exact h
    | false =>
      have hres : (Api.update_item db item_id upd cu).2 =
          (Crud.update_item db item_id upd none).2 := by
        simp [Api.update_item, hg, hc]
      rw [hres]
      exact crud_update_item_preserves_owners db item_id upd none h

theorem crud_delete_item_preserves_owners (db : DB) (item_id : Nat)
    (ofilter : Option Nat) (h : ownersExist db) :
    ownersExist (Crud.delete_item db item_id ofilter).2 := by
  cases hg : Crud.get_item db item_id with
  | none =>
    have hres : (Crud.delete_item db item_id ofilter).2 = db := by
      simp [Crud.delete_item, hg]
    rw [hres]
    exact h
  | some item =>
    cases ofilter with
    | some oid =>
      cases hof : (item.owner_id != oid) with
      | true =>
        have hres : (Crud.delete_item db item_id (some oid)).2 = db := by
          simp [Crud.delete_item, hg, hof]
        rw [hres]
        exact h
      | false =>
        have hres : (Crud.delete_item db item_id (some oid)).2 =
            { db with items := db.items.filter (fun it => it.id != item_id) } := by
          simp [Crud.delete_item, hg, hof]
        rw [hres]
        intro it hit
        exact h it (List.mem_filter.1 hit).1
    | none =>
      have hres : (Crud.delete_item db item_id none).2 =
          { db with items := db.items.filter (fun it => it.id != item_id) } := by
        simp [Crud.delete_item, hg]
      rw [hres]
      intro it hit
      exact h it (List.mem_filter.1 hit).1

theorem delete_item_preserves_owners (db : DB) (item_id : Nat)
    (cu : UserRec) (h : ownersExist db) :
    ownersExist (Api.delete_item db item_id cu).2 := by
  cases hg : Crud.get_item db item_id with
  | none =>
    have hres : (Api.delete_item db item_id cu).2 = db := by
      simp [Api.delete_item, hg]
    rw [hres]
    exact h
  | some item =>
    cases hc : (item.owner_id != cu.id && !cu.is_superuser) with
    | true =>
      have hres : (Api.delete_item db item_id cu).2 = db := by
        simp [Api.delete_item, hg, hc]
      rw [hres]
      exact h
    | false =>
      have hres : (Api.delete_item db item_id cu).2 =
          (Crud.delete_item db item_id none).2 := by
        simp [Api.delete_item, hg, hc]
      rw [hres]
      exact crud_delete_item_preserves_owners db item_id none h

theorem owners_exist_map_user_update (hash : String → String) (db : DB)
    (db_user : UserRec) (uu : UserUpdate) (user_id : Nat)
    (hdbid : db_user.id = user_id) (h : ownersExist db) :
    ownersExist
      { db with
          users := db.users.map
                     (fun v => if v.id == user_id then Crud.applyUserUpdate hash db_user uu else v) } := by
  intro it hit
  obtain ⟨w, hw, hwid⟩ := h it hit
  by_cases hw2 : (w.id == user_id) = true
  · refine ⟨Crud.applyUserUpdate hash db_user uu, ?_, ?_⟩
    · have hm := List.mem_map_of_mem
        (fun v => if v.id == user_id then Crud.applyUserUpdate hash db_user uu else v) hw
      simpa [hw2] using hm
    · have hweq : w.id = user_id := by
        simpa using hw2
      rw [applyUserUpdate_id, hdbid, ← hweq]
      exact hwid
  · refine ⟨w, ?_, hwid⟩
    have hm := List.mem_map_of_mem
      (fun v => if v.id == user_id then Crud.applyUserUpdate hash db_user uu else v) hw
    simpa [hw2] using hm

theorem crud_update_user_preserves_owners (hash : String → String) (db : DB)
    (user_id : Nat) (uu : UserUpdate) (h : ownersExist db) :
    ownersExist (Crud.update_user hash db user_id uu).2 := by
  cases hg : Crud.get_user db user_id with
  | none =>
    have hres : (Crud.update_user hash db user_id uu).2 = db := by
      simp [Crud.update_user, hg]
    rw [hres]
    exact h
  | some db_user =>
    have hdbid : db_user.id = user_id := by
      have hb := List.find?_some hg
      simpa using hb
    have hres : (Crud.update_user hash db user_id uu).2 =
        { db with
            users := db.users.map
                       (fun v => if v.id == user_id then Crud.applyUserUpdate hash db_user uu else v) } := by
      simp [Crud.update_user, hg]
    rw [hres]
    exact owners_exist_map_user_update hash db db_user uu user_id hdbid h

theorem delete_user_endpoint_preserves_owners (db : DB) (user_id : Nat)
    (cu : UserRec) (h : ownersExist db) :
    ownersExist (Api.delete_user db user_id cu).2 := by
  cases hg : Crud.get_user db user_id with
  | none =>
    have hres : (Api.delete_user db user_id cu).2 = db := by
      simp [Api.delete_user, hg]
    rw [hres]
    exact h
  | some target =>
    cases hc : (target.id != cu.id && !cu.is_superuser) with
    | true =>
      have hres : (Api.delete_user db user_id cu).2 = db := by
        simp [Api.delete_user, hg, hc]
      rw [hres]
      exact h
    | false =>
      have hres : (Api.delete_user db user_id cu).2 =
          (Crud.delete_user db user_id).2 := by
        simp [Api.delete_user, hg, hc]
      rw [hres]
      exact delete_user_preserves_owners db user_id h

/-- C6: the invariant that every item's owner_id names an existing user is
preserved by every operation of the service: registering a user, creating
an item for an authenticated (hence existing) requester, updating and
deleting items, updating a user, and — because the user model cascades the
delete onto the owned items — deleting a user, both at the CRUD layer and
through the endpoint. -/
theorem owner_reference_invariant_preserved :
    (∀ (hash : String → String) (db : DB) (user_in : UserCreate),
      ownersExist db → ownersExist (Api.register hash db user_in).2) ∧
    (∀ (db : DB) (item_in : ItemCreate) (cu : UserRec), cu ∈ db.users →
      ownersExist db → ownersExist (Api.create_item db item_in cu).2) ∧
    (∀ (db : DB) (item_id : Nat) (upd : ItemUpdate) (cu : UserRec),
      ownersExist db → ownersExist (Api.update_item db item_id upd cu).2) ∧
    (∀ (db : DB) (item_id : Nat) (cu : UserRec),
      ownersExist db → ownersExist (Api.delete_item db item_id cu).2) ∧
    (∀ (hash : String → String) (db : DB) (user_id : Nat) (uu : UserUpdate),
      ownersExist db → ownersExist (Crud.update_user hash db user_id uu).2) ∧
    (∀ (db : DB) (user_id : Nat),
      ownersExist db → ownersExist (Crud.delete_user db user_id).2) ∧
    (∀ (db : DB) (user_id : Nat) (cu : UserRec),
      ownersExist db → ownersExist (Api.delete_user db user_id cu).2) :=
  ⟨register_preserves_owners,
    create_item_preserves_owners,
    update_item_preserves_owners,
    delete_item_preserves_owners,
    crud_update_user_preserves_owners,
    delete_user_preserves_owners,
    delete_user_endpoint_preserves_owners⟩

/-- C6 witness: deleting the sample owner removes the owned item and keeps
the invariant on the sample store, and creating an item for an existing
requester keeps it as well. -/
theorem owner_reference_invariant_witness :
    ownersExist dbEx ∧
    ownersExist (Api.delete_user dbEx 1 aliceEx).2 ∧
    ownersExist (Api.create_item dbEx { title := "N" } bobEx).2 :=
  ⟨by unfold ownersExist; decide,
    owner_reference_invariant_preserved.2.2.2.2.2.2 dbEx 1 aliceEx
      (by unfold ownersExist; decide),
    owner_reference_invariant_preserved.2.1 dbEx { title := "N" } bobEx
      (by decide) (by unfold ownersExist; decide)⟩

/-- C10: the CRUD updates only touch the fields present in the payload.
When `update_item` returns an updated item, that item agrees with the
stored one on `id` and `owner_id` unconditionally and on `title` and
`description` whenever the payload leaves them unset; when `update_user`
returns an updated user, it keeps `id` and `is_superuser` unconditionally
and `email`, `full_name`, `hashed_password` and `is_active` whenever the
corresponding payload field is unset. -/
theorem update_frame_properties :
    (∀ (db : DB) (item_id : Nat) (upd : ItemUpdate) (ofilter : Option Nat)
        (it2 : ItemRec),
      (Crud.update_item db item_id upd ofilter).1 = some it2 →
      ∃ it1, Crud.get_item db item_id = some it1 ∧
        it2.id = it1.id ∧ it2.owner_id = it1.owner_id ∧
        (upd.title = none → it2.title = it1.title) ∧
        (upd.description = none → it2.description = it1.description)) ∧
    (∀ (hash : String → String) (db : DB) (user_id : Nat) (uu : UserUpdate)
        (u2 : UserRec),
      (Crud.update_user hash db user_id uu).1 = some u2 →
      ∃ u1, Crud.get_user db user_id = some u1 ∧
        u2.id = u1.id ∧ u2.is_superuser = u1.is_superuser ∧
        (uu.email = none → u2.email = u1.email) ∧
        (uu.full_name = none → u2.full_name = u1.full_name) ∧
        (uu.password = none → u2.hashed_password = u1.hashed_password) ∧
        (uu.is_active = none → u2.is_active = u1.is_active)) := by
  constructor
  · intro db item_id upd ofilter it2 h
    cases hg : Crud.get_item db item_id with
    | none =>
      rw [Crud.update_item, hg] at h
      simp at h
    | some item =>
      refine ⟨item, rfl, ?_⟩
      cases ofilter with
      | some oid =>
        cases hof : (item.owner_id != oid) with
        | true =>
          rw [Crud.update_item, hg] at h
          simp [hof] at h
        | false =>
          have h2 : Crud.applyItemUpdate item upd = it2 := by
            have hfst : (Crud.update_item db item_id upd (some oid)).1 =
                some (Crud.applyItemUpdate item upd) := by
              simp [Crud.update_item, hg, hof]
            rw [hfst] at h
            exact Option.some.inj h
          rw [← h2]
          exact ⟨applyItemUpdate_id item upd, applyItemUpdate_owner_id item upd,
            fun ht => applyItemUpdate_title_of_unset item upd ht,
            fun hd => applyItemUpdate_description_of_unset item upd hd⟩
      | none =>
        have h2 : Crud.applyItemUpdate item upd = it2 := by
          have hfst : (Crud.update_item db item_id upd none).1 =
              some (Crud.applyItemUpdate item upd) := by
            simp [Crud.update_item, hg]
          rw [hfst] at h
          exact Option.some.inj h
        rw [← h2]
        exact ⟨applyItemUpdate_id item upd, applyItemUpdate_owner_id item upd,
          fun ht => applyItemUpdate_title_of_unset item upd ht,
          fun hd => applyItemUpdate_description_of_unset item upd hd⟩
  · intro hash db user_id uu u2 h
    cases hg : Crud.get_user db user_id with
    | none =>
      rw [Crud.update_user, hg] at h
      simp at h
    | some db_user =>
      refine ⟨db_user, rfl, ?_⟩
      have h2 : Crud.applyUserUpdate hash db_user uu = u2 := by
        have hfst : (Crud.update_user hash db user_id uu).1 =
            some (Crud.applyUserUpdate hash db_user uu) := by
          simp [Crud.update_user, hg]
        rw [hfst] at h
        exact Option.some.inj h
      rw [← h2]
      exact ⟨applyUserUpdate_id hash db_user uu,
        applyUserUpdate_is_superuser hash db_user uu,
        fun he => applyUserUpdate_email_of_unset hash db_user uu he,
        fun hf => applyUserUpdate_full_name_of_unset hash db_user uu hf,
        fun hp => applyUserUpdate_password_of_unset hash db_user uu hp,
        fun ha => applyUserUpdate_is_active_of_unset hash db_user uu ha⟩

/-- C10 witness: a description-only item update and a name-only user update
on the sample store keep every other field. -/
theorem update_frame_properties_witness :
    (∃ it1, Crud.get_item dbEx 10 = some it1 ∧
      itemUpdatedEx.id = it1.id ∧ itemUpdatedEx.owner_id = it1.owner_id ∧
      (descUpdateEx.title = none → itemUpdatedEx.title = it1.title) ∧
      (descUpdateEx.description = none →
        itemUpdatedEx.description = it1.description)) ∧
    (∃ u1, Crud.get_user dbEx 1 = some u1 ∧
      aliceUpdatedEx.id = u1.id ∧ aliceUpdatedEx.is_superuser = u1.is_superuser ∧
      (nameUpdateEx.email = none → aliceUpdatedEx.email = u1.email) ∧
      (nameUpdateEx.full_name = none →
        aliceUpdatedEx.full_name = u1.full_name) ∧
      (nameUpdateEx.password = none →
        aliceUpdatedEx.hashed_password = u1.hashed_password) ∧
      (nameUpdateEx.is_active = none →
        aliceUpdatedEx.is_active = u1.is_active)) :=
  ⟨update_frame_properties.1 dbEx 10 descUpdateEx none itemUpdatedEx (by rfl),
    update_frame_properties.2 hashEx dbEx 1 nameUpdateEx aliceUpdatedEx (by rfl)⟩

end PyAuth
